/-
Verification of `ash_shader_creator` (src/lib.rs): a builder that scans a
directory of compiled shader binaries, wraps each matching file as a Vulkan
shader module, and assembles one `PipelineShaderStageCreateInfo` per module,
inferring the pipeline stage (vertex/fragment) from the file path.

Shallow embedding notes.
* File system: a directory is a list of `FileEntry` (file name plus byte
  content); `read_dir` is modelled as returning the entries in list order,
  the same order for both of the two scans the code performs.
* `ash::Device::create_shader_module` is an opaque external call; each call
  returns a fresh handle, modelled as the index of the call (`ShaderModule :=
  Nat`).  The create-info records passed to the external API are returned
  alongside the handles so that theorems can talk about what was passed.
* Rust panics (`unwrap` on `None`, the `panic!`-style stage failure) are
  modelled as `Except.error`; a panic aborts the whole computation, so an
  error result carries no descriptors.
* Pointers (`*const c_void`, `*const SpecializationInfo`) are modelled as
  `Nat` with `ptr::null()` as `0`; bit-flag sets are modelled as `Nat` with
  the empty set as `0`.  `CString` is modelled as `String`.
-/
import Mathlib

namespace AshShaderCreator

/-- Model of Rust `str::contains` on `List Char`: `containsSub pat hay` is
true when `pat` occurs as a contiguous substring of `hay`. -/
def containsSub (pat : List Char) : List Char → Bool
  | [] => pat.isEmpty
  | c :: rest => List.isPrefixOf pat (c :: rest) || containsSub pat rest

/-- `strContains hay pat` models Rust `hay.contains(pat)`. -/
def strContains (hay pat : String) : Bool :=
  containsSub pat.toList hay.toList

/-- Raw pointers (`*const c_void`, `*const SpecializationInfo`), modelled as
addresses. -/
abbrev Ptr := Nat

/-- Model of `ptr::null()`. -/
def ptrNull : Ptr := 0

/-- `ash::vk::ShaderModuleCreateFlags`, a bit-flag set modelled as `Nat`. -/
abbrev ShaderModuleCreateFlags := Nat

/-- Model of `ShaderModuleCreateFlags::empty()`. -/
def ShaderModuleCreateFlags.noFlags : ShaderModuleCreateFlags := 0

/-- `ash::vk::PipelineShaderStageCreateFlags`, a bit-flag set modelled as
`Nat`. -/
abbrev PipelineShaderStageCreateFlags := Nat

/-- Model of `PipelineShaderStageCreateFlags::empty()`. -/
def PipelineShaderStageCreateFlags.noFlags : PipelineShaderStageCreateFlags := 0

/-- The two `ash::vk::StructureType` variants the code uses. -/
inductive StructureType where
  | SHADER_MODULE_CREATE_INFO
  | PIPELINE_SHADER_STAGE_CREATE_INFO
deriving DecidableEq

/-- The two `ash::vk::ShaderStageFlags` constants the code uses. -/
inductive ShaderStageFlags where
  | VERTEX
  | FRAGMENT
deriving DecidableEq

/-- A Vulkan shader-module handle.  `create_shader_module` allocates a fresh
opaque handle per call; we model the handle as the index of the call. -/
abbrev ShaderModule := Nat

/-- A directory entry: file name and byte content. -/
structure FileEntry where
  name : String
  content : List Nat
deriving DecidableEq

/-- `DirEntry::path()`: the directory path joined with the file name. -/
def fullPath (dirPath name : String) : String :=
  dirPath ++ "/" ++ name

/-- The record passed to the external `create_shader_module` call
(`ash::vk::ShaderModuleCreateInfo`).  `pCode` keeps the byte list whose
pointer the code passes. -/
structure ShaderModuleCreateInfo where
  sType : StructureType
  pNext : Ptr
  flags : ShaderModuleCreateFlags
  codeSize : Nat
  pCode : List Nat
deriving DecidableEq

/-- `ash::vk::PipelineShaderStageCreateInfo` (the fields the code sets). -/
structure PipelineShaderStageCreateInfo where
  sType : StructureType
  pNext : Ptr
  flags : PipelineShaderStageCreateFlags
  stage : ShaderStageFlags
  module : ShaderModule
  pName : String
  pSpecializationInfo : Ptr
deriving DecidableEq

/-- The `ShaderStage` builder struct.  The `device : &Device` field is an
opaque external handle and is not part of the state the claims are about;
module creation is modelled directly in `create_shader_modules`. -/
structure ShaderStage where
  dir_path : String
  shader_flags : ShaderModuleCreateFlags
  shader_p_next : Ptr
  main_function_name : String
  shader_stage_flags : PipelineShaderStageCreateFlags
  shader_stage_p_next : Ptr
  spec_info : Ptr
deriving DecidableEq

/-- `ShaderStage::new(device, dir_path)`. -/
def ShaderStage.new (dir_path : String) : ShaderStage where
  dir_path := dir_path
  shader_flags := ShaderModuleCreateFlags.noFlags
  shader_p_next := ptrNull
  shader_stage_flags := PipelineShaderStageCreateFlags.noFlags
  shader_stage_p_next := ptrNull
  spec_info := ptrNull
  main_function_name := "main"

/-- `ShaderStage::with_shader_flags`. -/
def ShaderStage.with_shader_flags (s : ShaderStage)
    (shader_flags : ShaderModuleCreateFlags) : ShaderStage :=
  { s with shader_flags := shader_flags }

/-- `ShaderStage::with_shader_p_next`. -/
def ShaderStage.with_shader_p_next (s : ShaderStage) (p_next : Ptr) :
    ShaderStage :=
  { s with shader_p_next := p_next }

/-- `ShaderStage::with_shader_stage_flags`. -/
def ShaderStage.with_shader_stage_flags (s : ShaderStage)
    (shader_stage_flags : PipelineShaderStageCreateFlags) : ShaderStage :=
  { s with shader_stage_flags := shader_stage_flags }

/-- `ShaderStage::with_shader_stage_p_next`. -/
def ShaderStage.with_shader_stage_p_next (s : ShaderStage) (p_next : Ptr) :
    ShaderStage :=
  { s with shader_stage_p_next := p_next }

/-- `ShaderStage::with_spec_info`. -/
def ShaderStage.with_spec_info (s : ShaderStage) (spec_info : Ptr) :
    ShaderStage :=
  { s with spec_info := spec_info }

/-- `ShaderStage::with_main_function_name`. -/
def ShaderStage.with_main_function_name (s : ShaderStage)
    (main_function_name : String) : ShaderStage :=
  { s with main_function_name := main_function_name }

/-- The filter predicate of `create_shader_modules` (line 162):
`file_name.contains(".spv") || file_name.contains(".vs") ||
file_name.contains(".fs")`, applied to the full path. -/
def shaderFilePred (dirPath : String) (f : FileEntry) : Bool :=
  strContains (fullPath dirPath f.name) ".spv" ||
    strContains (fullPath dirPath f.name) ".vs" ||
    strContains (fullPath dirPath f.name) ".fs"

/-- The filter predicate of the second scan in `build` (line 111):
`path.contains(".spv")`. -/
def spvPred (dirPath : String) (f : FileEntry) : Bool :=
  strContains (fullPath dirPath f.name) ".spv"

/-- The files `create_shader_modules` keeps (`files_path_buf`). -/
def matchedFiles (dirPath : String) (dir : List FileEntry) : List FileEntry :=
  dir.filter (shaderFilePred dirPath)

/-- The files the second scan in `build` keeps. -/
def spvFiles (dirPath : String) (dir : List FileEntry) : List FileEntry :=
  dir.filter (spvPred dirPath)

/-- `file_paths` in `build`: the full paths of the `.spv`-filtered files. -/
def spvPaths (dirPath : String) (dir : List FileEntry) : List String :=
  (spvFiles dirPath dir).map (fun f => fullPath dirPath f.name)

/-- `create_shader_modules(device, dir_path, flags, p_next)`: filters the
directory, reads each matching file's bytes, and performs one external
`create_shader_module` call per file.  Returns the fresh handles (call
indices) and the create-info records passed to the external API. -/
def create_shader_modules (dirPath : String) (dir : List FileEntry)
    (flags : ShaderModuleCreateFlags) (p_next : Ptr) :
    List ShaderModule × List ShaderModuleCreateInfo :=
  let files := matchedFiles dirPath dir
  (List.range files.length,
    files.map fun f =>
      { sType := StructureType.SHADER_MODULE_CREATE_INFO
        pNext := p_next
        flags := flags
        codeSize := f.content.length
        pCode := f.content })

/-- The vertex test of `build` (line 127):
`path.contains("vert.spv") || path.contains(".vs")`. -/
def vertPat (path : String) : Bool :=
  strContains path "vert.spv" || strContains path ".vs"

/-- The fragment test of `build` (line 129):
`path.contains("frag.spv") || path.contains(".fs")`. -/
def fragPat (path : String) : Bool :=
  strContains path "frag.spv" || strContains path ".fs"

/-- The stage inference of `build` (lines 127-133): vertex test first, then
fragment test, otherwise the code panics ("Failed to define shader type!"),
modelled as `none`. -/
def stageOf (path : String) : Option ShaderStageFlags :=
  if vertPat path then some ShaderStageFlags.VERTEX
  else if fragPat path then some ShaderStageFlags.FRAGMENT
  else none

/-- Lookup in the `HashMap<&ShaderModule, PathBuf>` built by collecting the
zipped iterator (line 115-116).  The keys inserted are pairwise-distinct
fresh handles, so duplicate-key overwrite never occurs and association-list
lookup is an exact model. -/
def hashMapGet (pairs : List (ShaderModule × String)) (m : ShaderModule) :
    Option String :=
  List.lookup m pairs

/-- The `PipelineShaderStageCreateInfo` literal of `build` (lines 123-137). -/
def mkStageInfo (st : ShaderStage) (stage : ShaderStageFlags)
    (m : ShaderModule) : PipelineShaderStageCreateInfo where
  sType := StructureType.PIPELINE_SHADER_STAGE_CREATE_INFO
  pNext := st.shader_stage_p_next
  flags := st.shader_stage_flags
  stage := stage
  module := m
  pName := st.main_function_name
  pSpecializationInfo := st.spec_info

/-- The `map`-and-`collect` loop of `build` (lines 118-139): for each module,
look its path up in the map (`unwrap` panics on `None`), infer the stage
(panics on an unrecognized path), and build the descriptor.  A panic aborts
the loop, so an error carries no descriptors. -/
def buildDescriptors (st : ShaderStage)
    (pairs : List (ShaderModule × String)) :
    List ShaderModule → Except String (List PipelineShaderStageCreateInfo)
  | [] => Except.ok []
  | m :: rest =>
    match hashMapGet pairs m with
    | none => Except.error "called Option::unwrap on a None value"
    | some path =>
      match stageOf path with
      | none => Except.error "Failed to define shader type!"
      | some stage =>
        match buildDescriptors st pairs rest with
        | Except.error e => Except.error e
        | Except.ok ds => Except.ok (mkStageInfo st stage m :: ds)

/-- `ShaderStage::build`: create the modules, rescan the directory with the
`.spv` filter, zip the module handles with those paths into the map, and
build one descriptor per module handle. -/
def build (st : ShaderStage) (dir : List FileEntry) :
    Except String (List PipelineShaderStageCreateInfo) :=
  let shader_modules :=
    (create_shader_modules st.dir_path dir st.shader_flags st.shader_p_next).1
  let file_paths := spvPaths st.dir_path dir
  let shader_path := shader_modules.zip file_paths
  buildDescriptors st shader_path shader_modules

/-! ## Helper lemmas -/

theorem create_shader_modules_fst (dirPath : String) (dir : List FileEntry)
    (flags : ShaderModuleCreateFlags) (p_next : Ptr) :
    (create_shader_modules dirPath dir flags p_next).1 =
      List.range (matchedFiles dirPath dir).length := rfl

theorem create_shader_modules_snd (dirPath : String) (dir : List FileEntry)
    (flags : ShaderModuleCreateFlags) (p_next : Ptr) :
    (create_shader_modules dirPath dir flags p_next).2 =
      (matchedFiles dirPath dir).map fun f =>
        { sType := StructureType.SHADER_MODULE_CREATE_INFO
          pNext := p_next
          flags := flags
          codeSize := f.content.length
          pCode := f.content } := rfl

theorem build_eq (st : ShaderStage) (dir : List FileEntry) :
    build st dir =
      buildDescriptors st
        ((List.range (matchedFiles st.dir_path dir).length).zip
          (spvPaths st.dir_path dir))
        (List.range (matchedFiles st.dir_path dir).length) := rfl

/-- The `.spv` filter of `build` keeps a sub-collection of the files
`create_shader_modules` keeps. -/
theorem spv_sublist_matched (dirPath : String) (dir : List FileEntry) :
    (spvFiles dirPath dir).Sublist (matchedFiles dirPath dir) :=
  List.monotone_filter_right dir fun f hf => by
    simp only [spvPred] at hf
    simp [shaderFilePred, hf]

/-- Association-list lookup over `range' s M` zipped with values: keys are
`s, s+1, ...`, so looking up `m` lands at offset `m - s`. -/
theorem lookup_zip_range' (m : Nat) :
    ∀ (paths : List String) (s M : Nat), paths.length ≤ M →
      List.lookup m ((List.range' s M).zip paths) =
        if s ≤ m then paths[m - s]? else none := by
  intro paths
  induction paths with
  | nil =>
    intro s M h
    simp [List.lookup]
  | cons p ps ih =>
    intro s M h
    cases M with
    | zero => simp at h
    | succ n =>
      rw [List.range'_succ, List.zip_cons_cons]
      by_cases hm : m = s
      · subst hm
        simp [List.lookup]
      · have hne : (m == s) = false := beq_false_of_ne hm
        simp only [List.lookup, hne]
        rw [ih (s + 1) n (by simpa using h)]
        by_cases h1 : s ≤ m
        · have h2 : s + 1 ≤ m := Nat.succ_le_of_lt (Nat.lt_of_le_of_ne h1 (Ne.symm hm))

          rw [if_pos h2, if_pos h1]
          have hms : m - s = (m - (s + 1)) + 1 := by omega
          rw [hms, List.getElem?_cons_succ]
        · rw [if_neg (by omega), if_neg h1]

/-- Shape of a successful run of the descriptor loop: one descriptor per
module handle, each obtained from a successful map lookup and a successful
stage inference. -/
theorem buildDescriptors_ok_spec (st : ShaderStage)
    (pairs : List (ShaderModule × String)) :
    ∀ (ms : List ShaderModule) (out : List PipelineShaderStageCreateInfo),
      buildDescriptors st pairs ms = Except.ok out →
      out.length = ms.length ∧
      ∀ i, i < ms.length →
        ∃ mo path stage, ms[i]? = some mo ∧
          hashMapGet pairs mo = some path ∧
          stageOf path = some stage ∧
          out[i]? = some (mkStageInfo st stage mo) := by
  intro ms
  induction ms with
  | nil =>
    intro out h
    simp only [buildDescriptors, Except.ok.injEq] at h
    subst h
    exact ⟨rfl, fun i hi => absurd hi (by simp)⟩
  | cons m rest ih =>
    intro out h
    simp only [buildDescriptors] at h
    cases hget : hashMapGet pairs m with
    | none => simp [hget] at h
    | some path =>
      simp only [hget] at h
      cases hstage : stageOf path with
      | none => simp [hstage] at h
      | some stage =>
        simp only [hstage] at h
        cases hrec : buildDescriptors st pairs rest with
        | error e => simp [hrec] at h
        | ok ds =>
          simp only [hrec, Except.ok.injEq] at h
          subst h
          obtain ⟨hlen, hidx⟩ := ih ds hrec
          refine ⟨by simp [hlen], ?_⟩
          intro i hi
          cases i with
          | zero => exact ⟨m, path, stage, by simp, hget, hstage, by simp⟩
          | succ n =>
            obtain ⟨mo, path', stage', h1, h2, h3, h4⟩ :=
              hidx n (by simpa using hi)
            exact ⟨mo, path', stage', by simpa using h1, h2, h3,
              by simpa using h4⟩

/-- Master characterization of a successful `build`: the two directory scans
agreed (every file kept by `create_shader_modules` has `.spv` in its path),
there is one descriptor per `.spv` file, and descriptor `i` is assembled
from the `i`-th path and the `i`-th module handle. -/
theorem build_ok_spec (st : ShaderStage) (dir : List FileEntry)
    (out : List PipelineShaderStageCreateInfo)
    (h : build st dir = Except.ok out) :
    matchedFiles st.dir_path dir = spvFiles st.dir_path dir ∧
    out.length = (spvFiles st.dir_path dir).length ∧
    ∀ i, i < out.length →
      ∃ path stage, (spvPaths st.dir_path dir)[i]? = some path ∧
        stageOf path = some stage ∧
        out[i]? = some (mkStageInfo st stage i) := by
  rw [build_eq] at h
  obtain ⟨hlen, hidx⟩ := buildDescriptors_ok_spec st _ _ _ h
  have hKM : (spvPaths st.dir_path dir).length ≤
      (matchedFiles st.dir_path dir).length := by
    have := (spv_sublist_matched st.dir_path dir).length_le
    simpa [spvPaths] using this
  have hget : ∀ mo : Nat,
      hashMapGet
        ((List.range (matchedFiles st.dir_path dir).length).zip
          (spvPaths st.dir_path dir)) mo =
        (spvPaths st.dir_path dir)[mo]? := by
    intro mo
    unfold hashMapGet
    rw [List.range_eq_range',
      lookup_zip_range' mo (spvPaths st.dir_path dir) 0
        (matchedFiles st.dir_path dir).length hKM]
    simp
  have hMK : (matchedFiles st.dir_path dir).length ≤
      (spvPaths st.dir_path dir).length := by
    by_contra hlt
    push_neg at hlt
    obtain ⟨mo, path, stage, h1, h2, h3, h4⟩ :=
      hidx (spvPaths st.dir_path dir).length (by simpa using hlt)
    rw [List.getElem?_range (by simpa using hlt)] at h1
    have hmo : mo = (spvPaths st.dir_path dir).length :=
      (Option.some.inj h1).symm
    rw [hget, hmo, List.getElem?_eq_none (Nat.le_refl _)] at h2
    exact Option.noConfusion h2
  have hMeq : (matchedFiles st.dir_path dir).length =
      (spvPaths st.dir_path dir).length := Nat.le_antisymm hMK hKM
  have hfeq : matchedFiles st.dir_path dir = spvFiles st.dir_path dir := by
    have := (spv_sublist_matched st.dir_path dir).eq_of_length
      (by simpa [spvPaths] using hMeq.symm)
    exact this.symm
  refine ⟨hfeq, ?_, ?_⟩
  · rw [hlen, List.length_range, hfeq]
  · intro i hi
    have hiM : i < (matchedFiles st.dir_path dir).length := by
      rw [hlen, List.length_range] at hi
      exact hi
    obtain ⟨mo, path, stage, h1, h2, h3, h4⟩ := hidx i (by simpa using hiM)
    rw [List.getElem?_range hiM] at h1
    have hmo : mo = i := (Option.some.inj h1).symm
    subst hmo
    rw [hget] at h2
    exact ⟨path, stage, h2, h3, h4⟩

/-! ## Claim theorems -/

/-- C1 (counterexample to the claim as stated): the directory entry
`convert.spv` is processed by `build`, its path contains neither
`".vert.spv"` nor `".vs"` (nor a fragment pattern), so the claim demands an
unrecoverable failure — but the code matches the dot-less substring
`"vert.spv"` and returns a VERTEX descriptor.  Also, `a.vs.fs.spv` contains
the fragment pattern `".fs"`, so the claim demands a FRAGMENT stage, but the
vertex test fires first and the stage is VERTEX. -/
theorem C1_counterexample :
    build (ShaderStage.new "s") [{ name := "convert.spv", content := [0] }] =
      Except.ok [mkStageInfo (ShaderStage.new "s") ShaderStageFlags.VERTEX 0] ∧
    strContains (fullPath "s" "convert.spv") ".vert.spv" = false ∧
    strContains (fullPath "s" "convert.spv") ".vs" = false ∧
    strContains (fullPath "s" "convert.spv") ".frag.spv" = false ∧
    strContains (fullPath "s" "convert.spv") ".fs" = false ∧
    build (ShaderStage.new "s") [{ name := "a.vs.fs.spv", content := [0] }] =
      Except.ok [mkStageInfo (ShaderStage.new "s") ShaderStageFlags.VERTEX 0] ∧
    strContains (fullPath "s" "a.vs.fs.spv") ".fs" = true ∧
    (mkStageInfo (ShaderStage.new "s") ShaderStageFlags.VERTEX 0).stage ≠
      ShaderStageFlags.FRAGMENT :=
  ⟨rfl, rfl, rfl, rfl, rfl, rfl, rfl, by decide⟩

/-- C1 (amended): for every descriptor produced by `ShaderStage.build`, the
stage is VERTEX exactly when the file's path contains `"vert.spv"` (no
leading dot) or `".vs"` (`vertPat`), FRAGMENT exactly when the path contains
`"frag.spv"` or `".fs"` (`fragPat`) and no vertex pattern, and a descriptor
is never produced from a path matching neither pattern set. -/
theorem C1_stage_matching (st : ShaderStage) (dir : List FileEntry)
    (out : List PipelineShaderStageCreateInfo)
    (h : build st dir = Except.ok out) (i : Nat) (hi : i < out.length) :
    ∃ d path, out[i]? = some d ∧
      (spvPaths st.dir_path dir)[i]? = some path ∧
      (d.stage = ShaderStageFlags.VERTEX ↔ vertPat path = true) ∧
      (d.stage = ShaderStageFlags.FRAGMENT ↔
        (fragPat path = true ∧ vertPat path = false)) ∧
      ¬(vertPat path = false ∧ fragPat path = false) := by
  obtain ⟨_, _, hidx⟩ := build_ok_spec st dir out h
  obtain ⟨path, stage, hp, hs, hdesc⟩ := hidx i hi
  have hcase :
      (vertPat path = true ∧ stage = ShaderStageFlags.VERTEX) ∨
      (vertPat path = false ∧ fragPat path = true ∧
        stage = ShaderStageFlags.FRAGMENT) := by
    cases hveq : vertPat path with
    | true =>
      simp [stageOf, hveq] at hs
      exact Or.inl ⟨rfl, hs.symm⟩
    | false =>
      cases hfeq : fragPat path with
      | true =>
        simp [stageOf, hveq, hfeq] at hs
        exact Or.inr ⟨rfl, rfl, hs.symm⟩
      | false => simp [stageOf, hveq, hfeq] at hs
  refine ⟨mkStageInfo st stage i, path, hdesc, hp, ?_, ?_, ?_⟩
  · show stage = ShaderStageFlags.VERTEX ↔ vertPat path = true
    rcases hcase with ⟨hv, hst⟩ | ⟨hv, hfr, hst⟩ <;> simp [hv, hst]
  · show stage = ShaderStageFlags.FRAGMENT ↔
      (fragPat path = true ∧ vertPat path = false)
    rcases hcase with ⟨hv, hst⟩ | ⟨hv, hfr, hst⟩
    · simp [hv, hst]
    · simp [hv, hst, hfr]
  · rcases hcase with ⟨hv, hst⟩ | ⟨hv, hfr, hst⟩
    · simp [hv]
    · simp [hfr]

/-- Witness for C1: a one-file directory holding `a.vert.spv` builds one
descriptor, and the amended stage characterization holds for it. -/
theorem C1_stage_matching_witness :
    ∃ d path,
      [mkStageInfo (ShaderStage.new "s") ShaderStageFlags.VERTEX 0][0]? =
        some d ∧
      (spvPaths (ShaderStage.new "s").dir_path
        [{ name := "a.vert.spv", content := [1] }])[0]? = some path ∧
      (d.stage = ShaderStageFlags.VERTEX ↔ vertPat path = true) ∧
      (d.stage = ShaderStageFlags.FRAGMENT ↔
        (fragPat path = true ∧ vertPat path = false)) ∧
      ¬(vertPat path = false ∧ fragPat path = false) :=
  C1_stage_matching (ShaderStage.new "s")
    [{ name := "a.vert.spv", content := [1] }]
    [mkStageInfo (ShaderStage.new "s") ShaderStageFlags.VERTEX 0]
    rfl 0 (by decide)

/-- C2 (code bug): a directory holding the single file `a.vs` has one shader
file with a recognizable name (`stageOf` infers VERTEX for it, and
`create_shader_modules` matches and wraps it), yet `build` does not return
one descriptor: the second directory scan filters by `".spv"` only, the
module-to-path map is empty, and the `unwrap` on the lookup panics. -/
theorem C2_recognizable_vs_file_panics :
    build (ShaderStage.new "shaders")
      [{ name := "a.vs", content := [1, 2, 3] }] =
      Except.error "called Option::unwrap on a None value" ∧
    stageOf (fullPath "shaders" "a.vs") = some ShaderStageFlags.VERTEX ∧
    ({ name := "a.vs", content := [1, 2, 3] } : FileEntry) ∈
      matchedFiles "shaders" [{ name := "a.vs", content := [1, 2, 3] }] :=
  ⟨rfl, rfl, by decide⟩

/-- C3: in every successful `build`, descriptor `i` carries module handle
`i`, which is exactly the handle whose creation call passed the bytes of
file `i` of the matched files, and the descriptor's stage is inferred from
that same file's path — modules are never paired with another file's name. -/
theorem C3_module_paired_with_own_file (st : ShaderStage)
    (dir : List FileEntry) (out : List PipelineShaderStageCreateInfo)
    (h : build st dir = Except.ok out) (i : Nat) (hi : i < out.length) :
    ∃ d f, out[i]? = some d ∧
      (matchedFiles st.dir_path dir)[i]? = some f ∧
      d.module = i ∧
      (create_shader_modules st.dir_path dir st.shader_flags
        st.shader_p_next).2[i]? =
        some { sType := StructureType.SHADER_MODULE_CREATE_INFO
               pNext := st.shader_p_next
               flags := st.shader_flags
               codeSize := f.content.length
               pCode := f.content } ∧
      stageOf (fullPath st.dir_path f.name) = some d.stage := by
  obtain ⟨hfeq, hlen, hidx⟩ := build_ok_spec st dir out h
  obtain ⟨path, stage, hp, hs, hdesc⟩ := hidx i hi
  have hisp : i < (spvFiles st.dir_path dir).length := by
    rw [← hlen]; exact hi
  obtain ⟨f, hf⟩ : ∃ g, (spvFiles st.dir_path dir)[i]? = some g :=
    ⟨_, List.getElem?_eq_getElem hisp⟩
  have hpath : path = fullPath st.dir_path f.name := by
    rw [spvPaths, List.getElem?_map, hf, Option.map_some'] at hp
    exact (Option.some.inj hp).symm
  refine ⟨mkStageInfo st stage i, f, hdesc, ?_, rfl, ?_, ?_⟩
  · rw [hfeq]; exact hf
  · rw [create_shader_modules_snd, hfeq, List.getElem?_map, hf,
      Option.map_some']
  · rw [← hpath]; exact hs

/-- Witness for C3: a two-file directory (`a.vert.spv`, `b.frag.spv`); the
second descriptor carries module handle 1, created from `b.frag.spv`'s
bytes, with its stage inferred from `b.frag.spv`'s own path. -/
theorem C3_module_paired_with_own_file_witness :
    ∃ d f,
      [mkStageInfo (ShaderStage.new "shaders") ShaderStageFlags.VERTEX 0,
        mkStageInfo (ShaderStage.new "shaders")
          ShaderStageFlags.FRAGMENT 1][1]? = some d ∧
      (matchedFiles (ShaderStage.new "shaders").dir_path
        [{ name := "a.vert.spv", content := [1, 2] },
         { name := "b.frag.spv", content := [3] }])[1]? = some f ∧
      d.module = 1 ∧
      (create_shader_modules (ShaderStage.new "shaders").dir_path
        [{ name := "a.vert.spv", content := [1, 2] },
         { name := "b.frag.spv", content := [3] }]
        (ShaderStage.new "shaders").shader_flags
        (ShaderStage.new "shaders").shader_p_next).2[1]? =
        some { sType := StructureType.SHADER_MODULE_CREATE_INFO
               pNext := (ShaderStage.new "shaders").shader_p_next
               flags := (ShaderStage.new "shaders").shader_flags
               codeSize := f.content.length
               pCode := f.content } ∧
      stageOf (fullPath (ShaderStage.new "shaders").dir_path f.name) =
        some d.stage :=
  C3_module_paired_with_own_file (ShaderStage.new "shaders")
    [{ name := "a.vert.spv", content := [1, 2] },
     { name := "b.frag.spv", content := [3] }]
    [mkStageInfo (ShaderStage.new "shaders") ShaderStageFlags.VERTEX 0,
     mkStageInfo (ShaderStage.new "shaders") ShaderStageFlags.FRAGMENT 1]
    rfl 1 (by decide)

/-- C4: a directory entry is kept by `create_shader_modules` (and so loaded
and wrapped as a shader module) exactly when its path contains `".spv"`,
`".vs"` or `".fs"`; the handle list and the external-call list have one
entry per kept file, so skipped entries contribute nothing. -/
theorem C4_filter_characterization (dirPath : String) (dir : List FileEntry)
    (flags : ShaderModuleCreateFlags) (p_next : Ptr) (f : FileEntry) :
    (f ∈ matchedFiles dirPath dir ↔
      f ∈ dir ∧ (strContains (fullPath dirPath f.name) ".spv" ||
        strContains (fullPath dirPath f.name) ".vs" ||
        strContains (fullPath dirPath f.name) ".fs") = true) ∧
    (create_shader_modules dirPath dir flags p_next).1.length =
      (matchedFiles dirPath dir).length ∧
    (create_shader_modules dirPath dir flags p_next).2.length =
      (matchedFiles dirPath dir).length := by
  refine ⟨?_, ?_, ?_⟩
  · simp [matchedFiles, List.mem_filter, shaderFilePred]
  · rw [create_shader_modules_fst]; simp
  · rw [create_shader_modules_snd]; simp

/-- C5: `create_shader_modules` performs exactly one external
`create_shader_module` call per matched file, and the `i`-th call passes
exactly the `i`-th matched file's full byte content, with `codeSize` equal
to the number of bytes read. -/
theorem C5_one_call_per_file_full_bytes (dirPath : String)
    (dir : List FileEntry) (flags : ShaderModuleCreateFlags) (p_next : Ptr)
    (i : Nat) (hi : i < (matchedFiles dirPath dir).length) :
    (create_shader_modules dirPath dir flags p_next).2.length =
      (matchedFiles dirPath dir).length ∧
    ∃ f, (matchedFiles dirPath dir)[i]? = some f ∧
      (create_shader_modules dirPath dir flags p_next).2[i]? =
        some { sType := StructureType.SHADER_MODULE_CREATE_INFO
               pNext := p_next
               flags := flags
               codeSize := f.content.length
               pCode := f.content } := by
  refine ⟨by rw [create_shader_modules_snd]; simp, ?_⟩
  obtain ⟨f, hf⟩ : ∃ g, (matchedFiles dirPath dir)[i]? = some g :=
    ⟨_, List.getElem?_eq_getElem hi⟩
  exact ⟨f, hf,
    by rw [create_shader_modules_snd, List.getElem?_map, hf, Option.map_some']⟩

/-- Witness for C5: the one-file directory `a.vert.spv` with bytes
`[7, 7]` gives one call carrying those two bytes. -/
theorem C5_one_call_per_file_full_bytes_witness :
    (create_shader_modules "s" [{ name := "a.vert.spv", content := [7, 7] }]
      0 0).2.length =
      (matchedFiles "s" [{ name := "a.vert.spv", content := [7, 7] }]).length ∧
    ∃ f, (matchedFiles "s"
        [{ name := "a.vert.spv", content := [7, 7] }])[0]? = some f ∧
      (create_shader_modules "s"
        [{ name := "a.vert.spv", content := [7, 7] }] 0 0).2[0]? =
        some { sType := StructureType.SHADER_MODULE_CREATE_INFO
               pNext := 0
               flags := 0
               codeSize := f.content.length
               pCode := f.content } :=
  C5_one_call_per_file_full_bytes "s"
    [{ name := "a.vert.spv", content := [7, 7] }] 0 0 0 (by decide)

/-- C6: if any file kept by `create_shader_modules` has a path matching
neither the vertex nor the fragment name patterns, `build` fails with an
unrecoverable failure — it returns an error carrying no descriptors, never a
partial result. -/
theorem C6_unrecognized_name_fails (st : ShaderStage) (dir : List FileEntry)
    (f : FileEntry) (hf : f ∈ matchedFiles st.dir_path dir)
    (hbad : stageOf (fullPath st.dir_path f.name) = none) :
    ∃ e, build st dir = Except.error e := by
  cases hb : build st dir with
  | error e => exact ⟨e, rfl⟩
  | ok out =>
    exfalso
    obtain ⟨hfeq, hlen, hidx⟩ := build_ok_spec st dir out hb
    rw [hfeq] at hf
    obtain ⟨i, hi⟩ := List.mem_iff_getElem?.mp hf
    have hilt : i < out.length := by
      rw [hlen]
      exact (List.getElem?_eq_some.mp hi).1
    obtain ⟨path, stage, hp, hs, _⟩ := hidx i hilt
    rw [spvPaths, List.getElem?_map, hi, Option.map_some'] at hp
    have hpeq : path = fullPath st.dir_path f.name :=
      (Option.some.inj hp).symm
    rw [hpeq, hbad] at hs
    exact Option.noConfusion hs

/-- Witness for C6: the directory holding only `comp.spv` (matched, but
neither a vertex nor a fragment name) makes `build` fail. -/
theorem C6_unrecognized_name_fails_witness :
    ({ name := "comp.spv", content := [0] } : FileEntry) ∈
      matchedFiles "s" [{ name := "comp.spv", content := [0] }] ∧
    stageOf (fullPath "s" "comp.spv") = none ∧
    ∃ e, build (ShaderStage.new "s")
      [{ name := "comp.spv", content := [0] }] = Except.error e :=
  ⟨by decide, rfl,
    C6_unrecognized_name_fails (ShaderStage.new "s")
      [{ name := "comp.spv", content := [0] }]
      { name := "comp.spv", content := [0] } (by decide) rfl⟩

/-- C7: every descriptor a successful `build` returns copies the builder's
state verbatim (`s_type`, `p_next`, `flags`, `p_name`,
`p_specialization_info`), and every shader-module creation call uses the
builder's `shader_flags` and `shader_p_next`. -/
theorem C7_builder_state_copied (st : ShaderStage) (dir : List FileEntry)
    (out : List PipelineShaderStageCreateInfo)
    (h : build st dir = Except.ok out)
    (d : PipelineShaderStageCreateInfo) (hd : d ∈ out) :
    d.sType = StructureType.PIPELINE_SHADER_STAGE_CREATE_INFO ∧
    d.pNext = st.shader_stage_p_next ∧
    d.flags = st.shader_stage_flags ∧
    d.pName = st.main_function_name ∧
    d.pSpecializationInfo = st.spec_info ∧
    ∀ c ∈ (create_shader_modules st.dir_path dir st.shader_flags
        st.shader_p_next).2,
      c.flags = st.shader_flags ∧ c.pNext = st.shader_p_next := by
  obtain ⟨_, _, hidx⟩ := build_ok_spec st dir out h
  obtain ⟨i, hi⟩ := List.mem_iff_getElem?.mp hd
  have hilt : i < out.length := (List.getElem?_eq_some.mp hi).1
  obtain ⟨path, stage, hp, hs, hdesc⟩ := hidx i hilt
  rw [hi] at hdesc
  have hdeq : d = mkStageInfo st stage i := Option.some.inj hdesc
  subst hdeq
  refine ⟨rfl, rfl, rfl, rfl, rfl, ?_⟩
  intro c hc
  rw [create_shader_modules_snd] at hc
  obtain ⟨g, _, hg⟩ := List.mem_map.mp hc
  subst hg
  exact ⟨rfl, rfl⟩

/-- Witness for C7: the descriptor of the one-file build on `a.vert.spv`
carries the fresh builder's defaults. -/
theorem C7_builder_state_copied_witness :
    (mkStageInfo (ShaderStage.new "s") ShaderStageFlags.VERTEX 0).sType =
      StructureType.PIPELINE_SHADER_STAGE_CREATE_INFO ∧
    (mkStageInfo (ShaderStage.new "s") ShaderStageFlags.VERTEX 0).pNext =
      (ShaderStage.new "s").shader_stage_p_next ∧
    (mkStageInfo (ShaderStage.new "s") ShaderStageFlags.VERTEX 0).flags =
      (ShaderStage.new "s").shader_stage_flags ∧
    (mkStageInfo (ShaderStage.new "s") ShaderStageFlags.VERTEX 0).pName =
      (ShaderStage.new "s").main_function_name ∧
    (mkStageInfo (ShaderStage.new "s")
        ShaderStageFlags.VERTEX 0).pSpecializationInfo =
      (ShaderStage.new "s").spec_info ∧
    ∀ c ∈ (create_shader_modules (ShaderStage.new "s").dir_path
        [{ name := "a.vert.spv", content := [1] }]
        (ShaderStage.new "s").shader_flags
        (ShaderStage.new "s").shader_p_next).2,
      c.flags = (ShaderStage.new "s").shader_flags ∧
        c.pNext = (ShaderStage.new "s").shader_p_next :=
  C7_builder_state_copied (ShaderStage.new "s")
    [{ name := "a.vert.spv", content := [1] }]
    [mkStageInfo (ShaderStage.new "s") ShaderStageFlags.VERTEX 0]
    rfl (mkStageInfo (ShaderStage.new "s") ShaderStageFlags.VERTEX 0)
    (by decide)

/-- C8: `ShaderStage::new` initializes both flag fields to the empty flag
set, all three pointer fields to null, and the entry-point name to
`"main"`. -/
theorem C8_new_defaults (dir_path : String) :
    (ShaderStage.new dir_path).dir_path = dir_path ∧
    (ShaderStage.new dir_path).shader_flags =
      ShaderModuleCreateFlags.noFlags ∧
    (ShaderStage.new dir_path).shader_stage_flags =
      PipelineShaderStageCreateFlags.noFlags ∧
    (ShaderStage.new dir_path).shader_p_next = ptrNull ∧
    (ShaderStage.new dir_path).shader_stage_p_next = ptrNull ∧
    (ShaderStage.new dir_path).spec_info = ptrNull ∧
    (ShaderStage.new dir_path).main_function_name = "main" :=
  ⟨rfl, rfl, rfl, rfl, rfl, rfl, rfl⟩

/-- C9: each `with_*` setter sets exactly its named field and leaves every
other field of the builder unchanged. -/
theorem C9_setters_frame (s : ShaderStage)
    (fl : ShaderModuleCreateFlags) (p1 p2 si : Ptr)
    (sf : PipelineShaderStageCreateFlags) (n : String) :
    ((s.with_shader_flags fl).shader_flags = fl ∧
      (s.with_shader_flags fl).dir_path = s.dir_path ∧
      (s.with_shader_flags fl).shader_p_next = s.shader_p_next ∧
      (s.with_shader_flags fl).main_function_name = s.main_function_name ∧
      (s.with_shader_flags fl).shader_stage_flags = s.shader_stage_flags ∧
      (s.with_shader_flags fl).shader_stage_p_next =
        s.shader_stage_p_next ∧
      (s.with_shader_flags fl).spec_info = s.spec_info) ∧
    ((s.with_shader_p_next p1).shader_p_next = p1 ∧
      (s.with_shader_p_next p1).dir_path = s.dir_path ∧
      (s.with_shader_p_next p1).shader_flags = s.shader_flags ∧
      (s.with_shader_p_next p1).main_function_name =
        s.main_function_name ∧
      (s.with_shader_p_next p1).shader_stage_flags =
        s.shader_stage_flags ∧
      (s.with_shader_p_next p1).shader_stage_p_next =
        s.shader_stage_p_next ∧
      (s.with_shader_p_next p1).spec_info = s.spec_info) ∧
    ((s.with_shader_stage_flags sf).shader_stage_flags = sf ∧
      (s.with_shader_stage_flags sf).dir_path = s.dir_path ∧
      (s.with_shader_stage_flags sf).shader_flags = s.shader_flags ∧
      (s.with_shader_stage_flags sf).shader_p_next = s.shader_p_next ∧
      (s.with_shader_stage_flags sf).main_function_name =
        s.main_function_name ∧
      (s.with_shader_stage_flags sf).shader_stage_p_next =
        s.shader_stage_p_next ∧
      (s.with_shader_stage_flags sf).spec_info = s.spec_info) ∧
    ((s.with_shader_stage_p_next p2).shader_stage_p_next = p2 ∧
      (s.with_shader_stage_p_next p2).dir_path = s.dir_path ∧
      (s.with_shader_stage_p_next p2).shader_flags = s.shader_flags ∧
      (s.with_shader_stage_p_next p2).shader_p_next = s.shader_p_next ∧
      (s.with_shader_stage_p_next p2).main_function_name =
        s.main_function_name ∧
      (s.with_shader_stage_p_next p2).shader_stage_flags =
        s.shader_stage_flags ∧
      (s.with_shader_stage_p_next p2).spec_info = s.spec_info) ∧
    ((s.with_spec_info si).spec_info = si ∧
      (s.with_spec_info si).dir_path = s.dir_path ∧
      (s.with_spec_info si).shader_flags = s.shader_flags ∧
      (s.with_spec_info si).shader_p_next = s.shader_p_next ∧
      (s.with_spec_info si).main_function_name = s.main_function_name ∧
      (s.with_spec_info si).shader_stage_flags = s.shader_stage_flags ∧
      (s.with_spec_info si).shader_stage_p_next =
        s.shader_stage_p_next) ∧
    ((s.with_main_function_name n).main_function_name = n ∧
      (s.with_main_function_name n).dir_path = s.dir_path ∧
      (s.with_main_function_name n).shader_flags = s.shader_flags ∧
      (s.with_main_function_name n).shader_p_next = s.shader_p_next ∧
      (s.with_main_function_name n).shader_stage_flags =
        s.shader_stage_flags ∧
      (s.with_main_function_name n).shader_stage_p_next =
        s.shader_stage_p_next ∧
      (s.with_main_function_name n).spec_info = s.spec_info) :=
  ⟨⟨rfl, rfl, rfl, rfl, rfl, rfl, rfl⟩,
    ⟨rfl, rfl, rfl, rfl, rfl, rfl, rfl⟩,
    ⟨rfl, rfl, rfl, rfl, rfl, rfl, rfl⟩,
    ⟨rfl, rfl, rfl, rfl, rfl, rfl, rfl⟩,
    ⟨rfl, rfl, rfl, rfl, rfl, rfl, rfl⟩,
    ⟨rfl, rfl, rfl, rfl, rfl, rfl, rfl⟩⟩

/-- C10: if the path of the file a descriptor was built from matches both
the vertex patterns and the fragment patterns, the vertex check takes
precedence and the descriptor's stage is VERTEX. -/
theorem C10_vertex_precedence (st : ShaderStage) (dir : List FileEntry)
    (out : List PipelineShaderStageCreateInfo)
    (h : build st dir = Except.ok out) (i : Nat)
    (d : PipelineShaderStageCreateInfo) (path : String)
    (hd : out[i]? = some d)
    (hp : (spvPaths st.dir_path dir)[i]? = some path)
    (hv : vertPat path = true) (hfr : fragPat path = true) :
    d.stage = ShaderStageFlags.VERTEX := by
  obtain ⟨_, _, hidx⟩ := build_ok_spec st dir out h
  have hilt : i < out.length := (List.getElem?_eq_some.mp hd).1
  obtain ⟨path', stage, hp', hs, hdesc⟩ := hidx i hilt
  have hpe : path' = path := by
    rw [hp'] at hp
    exact Option.some.inj hp
  subst hpe
  have hde : d = mkStageInfo st stage i := by
    rw [hdesc] at hd
    exact (Option.some.inj hd).symm
  subst hde
  simp [stageOf, hv] at hs
  exact hs.symm

/-- Witness for C10: `a.vs.fs.spv` matches both `.vs` and `.fs`; the
resulting descriptor's stage is VERTEX. -/
theorem C10_vertex_precedence_witness :
    (mkStageInfo (ShaderStage.new "s") ShaderStageFlags.VERTEX 0).stage =
      ShaderStageFlags.VERTEX :=
  C10_vertex_precedence (ShaderStage.new "s")
    [{ name := "a.vs.fs.spv", content := [0] }]
    [mkStageInfo (ShaderStage.new "s") ShaderStageFlags.VERTEX 0]
    rfl 0 (mkStageInfo (ShaderStage.new "s") ShaderStageFlags.VERTEX 0)
    (fullPath "s" "a.vs.fs.spv") (by decide) rfl rfl rfl

end AshShaderCreator
